import Mathlib

/-!
A shallow embedding of the test harness of `simple_ut.h`.

The header `src/simple_ut.h` declares a registry of named test functions
(`get_test_cases`, filled by the `TEST` macro), two assertion macros
(`ASSERT_EQ`, `ASSERT_NE`) and the runner `run_all_tests`.

Modelling conventions.

* A C++ `void()` function acts on the program state and either returns or
  throws.  It is embedded as a total function `σ → Except Thrown Unit × σ`:
  the outcome together with the state it leaves behind (effects made before a
  `throw` persist).  A body that never returns, or that kills the process, has
  no image in the model.
* `σ` is the program state the test bodies act on.  For `run_all_tests` the
  registry and the output sink are kept apart from it: the registry is the list
  handed to the runner, which no body changes while the runner iterates over
  it, and `os` holds the text that `run_all_tests` itself writes.  `Program`
  and `Program.run_all_tests` put the registry into the state, for bodies that
  reach it through `get_test_cases()`.
* Test bodies share the program state: the harness resets nothing between two
  tests.
* `std::vector` is a `List`, `push_back` is `List.concat`.
* `std::ostream` is the `String` written so far, `<<` appends, `std::endl`
  appends a newline (flushing has no image), numbers are written in decimal.
* `int num_failures` is an `Int`; it is exact as long as the count fits the
  machine type.
* The assertion macros bind their operands with `auto&&`: an operand is
  evaluated once, where the macro stands, and yields a reference; the values
  compared are the ones the two references denote after both evaluations.
  Operand evaluations and the comparison operators do not throw.
-/

namespace SimpleUT

/-- The object carried by a C++ `throw`, classified by what the two handlers of
`run_all_tests` can tell apart.  `runtime_error` is a `std::runtime_error`
(the class thrown by `ASSERT_EQ` and `ASSERT_NE`).  `derived` is an object of
any other class that a reference `const std::exception&` can bind to, that is,
one that has `std::exception` as an accessible (public) and unambiguous base
(`std::logic_error`, `std::out_of_range`, `std::bad_alloc`, a user class
deriving publicly); both answer `what()`.  `non_std` is every other thrown
object: a value of a non-class type (`throw 42;`), a pointer, an object of a
class unrelated to `std::exception`, and also an object of a class that derives
from `std::exception` privately, protectedly or ambiguously. -/
inductive Thrown where
  | runtime_error (what : String)
  | derived (what : String)
  | non_std
  deriving DecidableEq, Repr

/-- The handler `catch (const std::exception& e)` matches exactly the objects
of a class that has `std::exception` as an accessible, unambiguous public base
(or is `std::exception` itself); the result is `e.what()`.  Everything else,
a privately derived class included, falls through to `catch (...)`. -/
def Thrown.catch_std_exception : Thrown → Option String
  | .runtime_error what => some what
  | .derived what => some what
  | .non_std => none

/-- Embedding of `using test_function = std::function<void()>`. -/
abbrev test_function (σ : Type) : Type := σ → Except Thrown Unit × σ

/-- Embedding of `struct test_case`. -/
structure test_case (σ : Type) where
  name : String
  func : test_function σ

/-- The registration performed by `TEST(name)`:
`get_test_cases().push_back({#name, name})`, acting on the contents of the
static vector. -/
def TEST {σ : Type} (name : String) (func : test_function σ)
    (test_cases : List (test_case σ)) : List (test_case σ) :=
  test_cases.concat { name := name, func := func }

/-- An operand expression of an assertion macro: its spelling (what `#expected`
stringifies) and its evaluation, which may change the state and yields what
`auto&&` binds to.  That is a reference, embedded as the function that reads the
value it denotes out of a later state: a constant function for the temporary of
a prvalue (`1`, `n + 1`, `x++`), a read of the state for an lvalue (`x`, `++x`),
whose object a later evaluation may still change. -/
structure Operand (σ α : Type) where
  text : String
  eval : σ → (σ → α) × σ

/-- The comparison operators of the operand type: `operator==` and
`operator!=`.  Nothing relates the two. -/
structure Comparable (α : Type) where
  eq : α → α → Bool
  ne : α → α → Bool

/-- The built-in comparison of a type with decidable equality. -/
def Comparable.builtin (α : Type) [DecidableEq α] : Comparable α where
  eq := fun x y => decide (x = y)
  ne := fun x y => !decide (x = y)

/-- Embedding of the macro `ASSERT_EQ(expected, actual)` expanded at
`file`:`line`. -/
def ASSERT_EQ {σ α : Type} (cmp : Comparable α) (file : String) (line : Nat)
    (expected actual : Operand σ α) : test_function σ := fun s =>
  let (e, s₁) := expected.eval s
  let (a, s₂) := actual.eval s₁
  if cmp.ne (e s₂) (a s₂) then
    (.error (.runtime_error
      (file ++ ":" ++ toString line ++ ": expected " ++ expected.text ++ "==" ++ actual.text)),
     s₂)
  else (.ok (), s₂)

/-- Embedding of the macro `ASSERT_NE(expected, actual)` expanded at
`file`:`line`. -/
def ASSERT_NE {σ α : Type} (cmp : Comparable α) (file : String) (line : Nat)
    (expected actual : Operand σ α) : test_function σ := fun s =>
  let (e, s₁) := expected.eval s
  let (a, s₂) := actual.eval s₁
  if cmp.eq (e s₂) (a s₂) then
    (.error (.runtime_error
      (file ++ ":" ++ toString line ++ ": expected " ++ expected.text ++ "!=" ++ actual.text)),
     s₂)
  else (.ok (), s₂)

/-- Sequential composition of two statements of a test body: the second runs
only when the first returns; a `throw` of the first leaves the body at once. -/
def seq {σ : Type} (p q : test_function σ) : test_function σ := fun s =>
  match p s with
  | (.ok (), s₁) => q s₁
  | (.error t, s₁) => (.error t, s₁)

/-- The `for (const auto& test : get_test_cases())` loop of `run_all_tests`,
with the local `num_failures`, the stream and the program state threaded
through the iterations. -/
def run_all_tests_loop {σ : Type} :
    List (test_case σ) → String → Int → σ → String × Int × σ
  | [], os, num_failures, s => (os, num_failures, s)
  | test :: rest, os, num_failures, s =>
    let os := os ++ "Running test: " ++ test.name ++ "... "
    match test.func s with
    | (.ok (), s₁) => run_all_tests_loop rest (os ++ "PASS\n") num_failures s₁
    | (.error t, s₁) =>
      match t.catch_std_exception with
      | some what =>
        run_all_tests_loop rest (os ++ "FAIL: " ++ what ++ "\n") (num_failures + 1) s₁
      | none =>
        run_all_tests_loop rest (os ++ "FAIL: Unknown exception\n") (num_failures + 1) s₁

/-- What a call of `run_all_tests` leaves behind: the returned `int`, the
stream and the program state. -/
structure RunResult (σ : Type) where
  ret : Int
  os : String
  state : σ

/-- Embedding of `int run_all_tests(std::ostream& os)`; `get_test_cases` is the
content of the registry, `os` the text already in the stream. -/
def run_all_tests {σ : Type} (get_test_cases : List (test_case σ)) (os : String) (s : σ) :
    RunResult σ :=
  match run_all_tests_loop get_test_cases os 0 s with
  | (os, num_failures, s₁) =>
    let os := os ++ "Total tests run: " ++ toString get_test_cases.length ++ "\n"
    let os := os ++ "Total failures: " ++ toString num_failures ++ "\n"
    { ret := num_failures, os := os, state := s₁ }

/-! ## The run described from outside

The definitions below say what a run is expected to do, in the words of the
specification: which outcome each body has when its turn comes, and which line
is reported for it.  They are compared with the embedding of the code above. -/

/-- The outcome of every body of the registry when the bodies are invoked once
each, in order, every one from the state its predecessor left. -/
def outcomes {σ : Type} : List (test_case σ) → σ → List (Except Thrown Unit)
  | [], _ => []
  | test :: rest, s => (test.func s).1 :: outcomes rest (test.func s).2

/-- The program state after every body of the registry has been invoked once,
in order. -/
def state_after {σ : Type} (tests : List (test_case σ)) (s : σ) : σ :=
  tests.foldl (fun s test => (test.func s).2) s

/-- A body signals a failure when it throws, whatever it throws. -/
def signals_failure : Except Thrown Unit → Bool
  | .ok _ => false
  | .error _ => true

/-- The line reported for a test called `name` whose body had the given
outcome. -/
def report_line (name : String) : Except Thrown Unit → String
  | .ok _ => "Running test: " ++ name ++ "... " ++ "PASS\n"
  | .error (.runtime_error message) => "Running test: " ++ name ++ "... " ++ ("FAIL: " ++ message ++ "\n")
  | .error (.derived message) => "Running test: " ++ name ++ "... " ++ ("FAIL: " ++ message ++ "\n")
  | .error .non_std => "Running test: " ++ name ++ "... " ++ "FAIL: Unknown exception\n"

/-- The lines reported for a registry, one per entry, in registration order. -/
def report_lines {σ : Type} (tests : List (test_case σ)) (s : σ) : List String :=
  List.zipWith (fun test o => report_line test.name o) tests (outcomes tests s)

/-- The text made of the given lines, one after the other. -/
def text_of : List String → String
  | [] => ""
  | l :: ls => l ++ text_of ls

/-- The number of bodies of the registry that signal a failure during a run. -/
def failure_count {σ : Type} (tests : List (test_case σ)) (s : σ) : Nat :=
  (outcomes tests s).countP signals_failure

/-- A test whose body, each time it is invoked, appends the entry to a log of
invocations kept beside the program state, and otherwise does what the body of
`test` does. -/
def recorded {σ : Type} (test : test_case σ) : test_case (σ × List (test_case σ)) where
  name := test.name
  func := fun p => ((test.func p.1).1, ((test.func p.1).2, p.2 ++ [test]))

/-- An operand expression that, each time it is evaluated, appends its spelling
to a log of evaluations kept beside the program state, and otherwise evaluates
as `op` does. -/
def Operand.traced {σ α : Type} (op : Operand σ α) : Operand (σ × List String) α where
  text := op.text
  eval := fun p => (fun q => (op.eval p.1).1 q.1, ((op.eval p.1).2, p.2 ++ [op.text]))

/-- The state in which an assertion macro compares its operands: the one left by
evaluating `expected` and then `actual`. -/
def operands_state {σ α : Type} (expected actual : Operand σ α) (s : σ) : σ :=
  (actual.eval (expected.eval s).2).2

/-- The value the reference `e` of an assertion macro denotes when the
comparison is made. -/
def expected_value {σ α : Type} (expected actual : Operand σ α) (s : σ) : α :=
  (expected.eval s).1 (operands_state expected actual s)

/-- The value the reference `a` of an assertion macro denotes when the
comparison is made. -/
def actual_value {σ α : Type} (expected actual : Operand σ α) (s : σ) : α :=
  (actual.eval (expected.eval s).2).1 (operands_state expected actual s)

/-- A `test_case` as the static vector holds it in a running program: the name
and the callable, given by its address in the table of the functions of the
program (the `TEST` macro stores the function `name` itself). -/
structure stored_test_case where
  name : String
  func : Nat
  deriving DecidableEq, Repr

/-- The state of a program that uses the header, as a test body can reach it:
the function-local `static std::vector<test_case> test_cases` of
`get_test_cases`, which any code may read and change through the reference the
accessor hands out, and the rest of the program state. -/
structure Program (γ : Type) where
  test_cases : List stored_test_case
  globals : γ

/-- Embedding of `std::vector<test_case>& get_test_cases()`: the contents of
the static vector. -/
def get_test_cases {γ : Type} (p : Program γ) : List stored_test_case :=
  p.test_cases

/-- The loop of `run_all_tests` in a program whose bodies can reach the
registry.  The range-based `for` fixes its bounds when it starts: `remaining`
positions are left to visit, the next one is `position`; the entry is read from
the vector when its turn comes, and `code` says what calling a stored function
does.  A position that is no longer in the vector stops the loop (the C++ has no
defined behaviour there). -/
def Program.run_all_tests_loop {γ : Type} (code : Nat → test_function (Program γ)) :
    Nat → Nat → String → Int → Program γ → String × Int × Program γ
  | 0, _, os, num_failures, p => (os, num_failures, p)
  | remaining + 1, position, os, num_failures, p =>
    match (get_test_cases p)[position]? with
    | none => (os, num_failures, p)
    | some test =>
      let os := os ++ "Running test: " ++ test.name ++ "... "
      match code test.func p with
      | (.ok (), p₁) =>
        Program.run_all_tests_loop code remaining (position + 1) (os ++ "PASS\n")
          num_failures p₁
      | (.error t, p₁) =>
        match t.catch_std_exception with
        | some what =>
          Program.run_all_tests_loop code remaining (position + 1)
            (os ++ "FAIL: " ++ what ++ "\n") (num_failures + 1) p₁
        | none =>
          Program.run_all_tests_loop code remaining (position + 1)
            (os ++ "FAIL: Unknown exception\n") (num_failures + 1) p₁

/-- Embedding of `int run_all_tests(std::ostream& os)` in a program whose
bodies can reach the registry: the loop runs over the positions the vector has
when the loop starts, and the summary asks `get_test_cases().size()` again,
after the loop. -/
def Program.run_all_tests {γ : Type} (code : Nat → test_function (Program γ))
    (p : Program γ) (os : String) : RunResult (Program γ) :=
  match Program.run_all_tests_loop code (get_test_cases p).length 0 os 0 p with
  | (os, num_failures, p₁) =>
    let os := os ++ "Total tests run: " ++ toString (get_test_cases p₁).length ++ "\n"
    let os := os ++ "Total failures: " ++ toString num_failures ++ "\n"
    { ret := num_failures, os := os, state := p₁ }

/-- The registry of a program as a list of tests for `run_all_tests`: every
stored entry with the body its function has. -/
def Program.registered {γ : Type} (code : Nat → test_function (Program γ))
    (p : Program γ) : List (test_case (Program γ)) :=
  (get_test_cases p).map (fun test => { name := test.name, func := code test.func })

/-! ## Lemmas on the model -/

theorem text_of_append (xs ys : List String) :
    text_of (xs ++ ys) = text_of xs ++ text_of ys := by
  induction xs with
  | nil => simp [text_of]
  | cons x xs ih => simp [text_of, ih, String.append_assoc]

theorem outcomes_length {σ : Type} (tests : List (test_case σ)) (s : σ) :
    (outcomes tests s).length = tests.length := by
  induction tests generalizing s with
  | nil => rfl
  | cons t ts ih => simp [outcomes, ih]

theorem outcomes_append {σ : Type} (xs ys : List (test_case σ)) (s : σ) :
    outcomes (xs ++ ys) s = outcomes xs s ++ outcomes ys (state_after xs s) := by
  induction xs generalizing s with
  | nil => rfl
  | cons t ts ih => simp [outcomes, state_after, ih]

theorem report_lines_length {σ : Type} (tests : List (test_case σ)) (s : σ) :
    (report_lines tests s).length = tests.length := by
  simp [report_lines, outcomes_length]

theorem report_lines_cons {σ : Type} (t : test_case σ) (ts : List (test_case σ)) (s : σ) :
    report_lines (t :: ts) s
      = report_line t.name (t.func s).1 :: report_lines ts (t.func s).2 := by
  simp [report_lines, outcomes]

theorem report_lines_append {σ : Type} (xs ys : List (test_case σ)) (s : σ) :
    report_lines (xs ++ ys) s = report_lines xs s ++ report_lines ys (state_after xs s) := by
  induction xs generalizing s with
  | nil => rfl
  | cons t ts ih =>
    simp only [List.cons_append, report_lines_cons, ih]
    rfl

theorem failure_count_cons {σ : Type} (t : test_case σ) (ts : List (test_case σ)) (s : σ) :
    failure_count (t :: ts) s
      = (if signals_failure (t.func s).1 then 1 else 0) + failure_count ts (t.func s).2 := by
  simp only [failure_count, outcomes, List.countP_cons]
  split <;> omega

theorem failure_count_append {σ : Type} (xs ys : List (test_case σ)) (s : σ) :
    failure_count (xs ++ ys) s = failure_count xs s + failure_count ys (state_after xs s) := by
  simp [failure_count, outcomes_append]

theorem failure_count_le {σ : Type} (tests : List (test_case σ)) (s : σ) :
    failure_count tests s ≤ tests.length := by
  have h := List.countP_le_length signals_failure (l := outcomes tests s)
  simpa [failure_count, outcomes_length] using h

/-- The loop of `run_all_tests`, in closed form: it appends the reported lines
to the stream, adds the number of failing bodies to the counter and leaves the
state the bodies produce. -/
theorem run_all_tests_loop_eq {σ : Type} (tests : List (test_case σ)) (os : String)
    (num_failures : Int) (s : σ) :
    run_all_tests_loop tests os num_failures s
      = (os ++ text_of (report_lines tests s),
         num_failures + (failure_count tests s : Int),
         state_after tests s) := by
  induction tests generalizing os num_failures s with
  | nil => simp [run_all_tests_loop, report_lines, text_of, failure_count, state_after, outcomes]
  | cons t ts ih =>
    rw [report_lines_cons, failure_count_cons]
    simp only [run_all_tests_loop, state_after, List.foldl_cons, text_of]
    rcases h : t.func s with ⟨o, s₁⟩
    cases o with
    | ok u =>
      cases u
      simp only [ih, report_line, signals_failure, state_after, String.append_assoc]
      simp
    | error e =>
      cases e <;>
        simp only [ih, report_line, signals_failure, state_after, String.append_assoc,
          Thrown.catch_std_exception] <;>
        simp [add_assoc]

theorem run_all_tests_eq {σ : Type} (tests : List (test_case σ)) (os : String) (s : σ) :
    run_all_tests tests os s
      = { ret := (failure_count tests s : Int),
          os := os ++ text_of (report_lines tests s)
                  ++ "Total tests run: " ++ toString tests.length ++ "\n"
                  ++ "Total failures: " ++ toString (failure_count tests s) ++ "\n",
          state := state_after tests s } := by
  simp only [run_all_tests, run_all_tests_loop_eq, zero_add]
  rfl

theorem outcomes_map_recorded {σ : Type} (tests : List (test_case σ)) (s : σ)
    (log : List (test_case σ)) :
    outcomes (tests.map recorded) (s, log) = outcomes tests s := by
  induction tests generalizing s log with
  | nil => rfl
  | cons t ts ih => simp [outcomes, recorded, ih]

theorem state_after_map_recorded {σ : Type} (tests : List (test_case σ)) (s : σ)
    (log : List (test_case σ)) :
    state_after (tests.map recorded) (s, log) = (state_after tests s, log ++ tests) := by
  induction tests generalizing s log with
  | nil => simp [state_after]
  | cons t ts ih =>
    have h := ih (t.func s).2 (log ++ [t])
    simp only [state_after] at h
    simp [state_after, recorded, h]

theorem report_lines_map_recorded {σ : Type} (tests : List (test_case σ)) (s : σ)
    (log : List (test_case σ)) :
    report_lines (tests.map recorded) (s, log) = report_lines tests s := by
  induction tests generalizing s log with
  | nil => rfl
  | cons t ts ih =>
    simp only [List.map_cons, report_lines_cons]
    simp [recorded, ih]

/-- The assertion macros compare what their references denote after both
operands have been evaluated.  With `int x = 1`, `ASSERT_EQ(x, ++x)` compares `x`
with itself and passes, and `ASSERT_EQ(x, x++)` compares the incremented `x`
with the temporary holding the old value and fails. -/
theorem ASSERT_EQ_compares_after_both_evaluations :
    ASSERT_EQ (Comparable.builtin Int) "t.cpp" 3
        ⟨"x", fun x => (fun x₁ => x₁, x)⟩ ⟨"++x", fun x => (fun x₁ => x₁, x + 1)⟩ (1 : Int)
      = (.ok (), 2)
    ∧ ASSERT_EQ (Comparable.builtin Int) "t.cpp" 4
        ⟨"x", fun x => (fun x₁ => x₁, x)⟩ ⟨"x++", fun x => (fun _ => x, x + 1)⟩ (1 : Int)
      = (.error (.runtime_error "t.cpp:4: expected x==x++"), 2) :=
  ⟨rfl, rfl⟩

theorem state_after_test_cases {γ : Type} (tests : List (test_case (Program γ)))
    (h : ∀ test ∈ tests, ∀ q : Program γ, (test.func q).2.test_cases = q.test_cases)
    (p : Program γ) :
    (state_after tests p).test_cases = p.test_cases := by
  induction tests generalizing p with
  | nil => rfl
  | cons t ts ih =>
    have ht := h t (List.mem_cons_self t ts) p
    have hts := ih (fun u hu => h u (List.mem_cons_of_mem t hu)) (t.func p).2
    simp only [state_after, List.foldl_cons] at hts ⊢
    rw [hts, ht]

/-- When no registered body changes the registry, the loop over the positions of
the vector is the loop of `run_all_tests` over the entries found there when it
started. -/
theorem Program.run_all_tests_loop_eq_of_preserved {γ : Type}
    (code : Nat → test_function (Program γ)) (registry : List stored_test_case)
    (h : ∀ test ∈ registry, ∀ q : Program γ, (code test.func q).2.test_cases = q.test_cases)
    (remaining position : Nat) (os : String) (num_failures : Int) (p : Program γ)
    (hp : p.test_cases = registry) :
    Program.run_all_tests_loop code remaining position os num_failures p
      = SimpleUT.run_all_tests_loop
          (((registry.drop position).take remaining).map
            (fun test => { name := test.name, func := code test.func }))
          os num_failures p := by
  induction remaining generalizing position os num_failures p with
  | zero => simp [Program.run_all_tests_loop, SimpleUT.run_all_tests_loop]
  | succ k ih =>
    rw [Program.run_all_tests_loop]
    simp only [get_test_cases, hp]
    cases hget : registry[position]? with
    | none =>
      have hlen : registry.length ≤ position := List.getElem?_eq_none_iff.mp hget
      simp [List.drop_eq_nil_of_le hlen, SimpleUT.run_all_tests_loop]
    | some test =>
      obtain ⟨hlt, hval⟩ := List.getElem?_eq_some.mp hget
      have hmem : test ∈ registry := hval ▸ List.getElem_mem hlt
      have hdrop : registry.drop position = test :: registry.drop (position + 1) := by
        rw [List.drop_eq_getElem_cons hlt, hval]
      have hq := h test hmem p
      simp only [hdrop, List.take_succ_cons, List.map_cons, SimpleUT.run_all_tests_loop]
      rcases hc : code test.func p with ⟨o, p₁⟩
      rw [hc] at hq
      simp only at hq
      have hp₁ : p₁.test_cases = registry := hq.trans hp
      cases o with
      | ok u =>
        cases u
        simp only [ih _ _ _ _ hp₁]
      | error e =>
        cases e <;> simp only [Thrown.catch_std_exception, ih _ _ _ _ hp₁]

/-! ## The claims -/

/-- C1: for every registry and every stream, `run_all_tests` returns the number
of registered entries whose body signals a failure, whatever is thrown; an entry
whose body returns adds nothing.  The second part says the same entry by entry:
the value for `test :: rest` is the value for `rest` (run from the state `test`
leaves) plus one exactly when the body of `test` throws. -/
theorem run_all_tests_returns_failure_count {σ : Type} (tests : List (test_case σ))
    (os : String) (s : σ) :
    (run_all_tests tests os s).ret = ((outcomes tests s).countP signals_failure : Nat)
    ∧ ∀ (test : test_case σ) (os₁ : String),
        (run_all_tests (test :: tests) os s).ret
          = (match (test.func s).1 with
             | .ok _ => 0
             | .error _ => 1) + (run_all_tests tests os₁ (test.func s).2).ret := by
  refine ⟨?_, ?_⟩
  · rw [run_all_tests_eq]; rfl
  · intro test os₁
    simp only [run_all_tests_eq, failure_count_cons]
    rcases (test.func s).1 with e | u <;> simp [signals_failure]

/-- C2: `run_all_tests` invokes the body of every entry exactly once, in
registration order.  Running the registry whose bodies record their own
invocation extends the log of invocations by the registry itself, entry for
entry, duplicates included; the recording changes neither the returned value,
nor the text written, nor the program state, and that state is the one obtained
by applying the bodies once each from left to right. -/
theorem run_all_tests_invokes_every_body_once_in_order {σ : Type}
    (tests : List (test_case σ)) (os : String) (s : σ) (log : List (test_case σ)) :
    (run_all_tests (tests.map recorded) os (s, log)).state
        = ((run_all_tests tests os s).state, log ++ tests)
    ∧ (run_all_tests (tests.map recorded) os (s, log)).ret = (run_all_tests tests os s).ret
    ∧ (run_all_tests (tests.map recorded) os (s, log)).os = (run_all_tests tests os s).os
    ∧ (run_all_tests tests os s).state = tests.foldl (fun s test => (test.func s).2) s := by
  simp only [run_all_tests_eq, state_after_map_recorded, report_lines_map_recorded,
    failure_count, outcomes_map_recorded, List.length_map, and_self, true_and]
  rfl

/-- C3: the text `run_all_tests` writes for the tests is one line per entry, in
registration order: "Running test: " ++ name ++ "... " followed by "PASS\n"
when the body returns, by "FAIL: " ++ message ++ "\n" when it throws an object
that carries a message (`what()`), and by "FAIL: Unknown exception\n" when
it throws anything else.  The lines come right after what the stream held and
right before the two lines of the summary. -/
theorem run_all_tests_writes_one_line_per_test {σ : Type} (tests : List (test_case σ))
    (os : String) (s : σ) :
    (run_all_tests_loop tests os 0 s).1
        = os ++ text_of (List.zipWith
            (fun test outcome =>
              "Running test: " ++ test.name ++ "... " ++
                (match outcome with
                 | .ok _ => "PASS\n"
                 | .error (.runtime_error message) => "FAIL: " ++ message ++ "\n"
                 | .error (.derived message) => "FAIL: " ++ message ++ "\n"
                 | .error .non_std => "FAIL: Unknown exception\n"))
            tests (outcomes tests s))
    ∧ (outcomes tests s).length = tests.length
    ∧ (run_all_tests tests os s).os
        = (run_all_tests_loop tests os 0 s).1
            ++ "Total tests run: " ++ toString tests.length ++ "\n"
            ++ "Total failures: " ++ toString (run_all_tests tests os s).ret ++ "\n" := by
  refine ⟨?_, outcomes_length tests s, ?_⟩
  · rw [run_all_tests_loop_eq]
    simp only [report_lines]
    congr 3
    funext test outcome
    rcases outcome with e | u
    · cases e <;> rfl
    · rfl
  · simp only [run_all_tests_eq, run_all_tests_loop_eq]
    rfl

/-- C4: the last text `run_all_tests` writes, after everything the loop wrote,
is "Total tests run: N\n" followed by "Total failures: K\n", where N is the
number of registered entries and K the returned value, both in decimal (K is
never negative, so it is written without a sign). -/
theorem run_all_tests_summary {σ : Type} (tests : List (test_case σ)) (os : String) (s : σ) :
    (run_all_tests tests os s).os
        = (run_all_tests_loop tests os 0 s).1
            ++ ("Total tests run: " ++ Nat.repr tests.length ++ "\n"
                ++ ("Total failures: " ++ Nat.repr (run_all_tests tests os s).ret.toNat ++ "\n"))
    ∧ 0 ≤ (run_all_tests tests os s).ret := by
  simp only [run_all_tests_eq, run_all_tests_loop_eq, String.append_assoc, Int.toNat_ofNat]
  exact ⟨rfl, Int.ofNat_nonneg _⟩

/-- C5, as stated, fails: the harness does not isolate the state of the
program between tests.  With `int flag = 0`, `xs` holding the test `a` whose
body is `flag = 1;` and `ys` holding the test `b` whose body is
`ASSERT_EQ(flag, 0);`, a run of `ys` alone reports `b` as passed and returns 0,
as does a run of `xs` alone, but the run of `xs ++ ys` reports `b` as failed and
returns 1. -/
theorem run_all_tests_append_counterexample :
    (run_all_tests
        ([({ name := "a", func := fun _ => (.ok (), 1) } : test_case Nat)]
          ++ [{ name := "b",
                func := ASSERT_EQ (Comparable.builtin Nat) "t.cpp" 9
                  ⟨"flag", fun flag => (fun now => now, flag)⟩
                  ⟨"0", fun flag => (fun _ => 0, flag)⟩ }]) "" 0).os
        = "Running test: a... PASS\nRunning test: b... FAIL: t.cpp:9: expected flag==0\nTotal tests run: 2\nTotal failures: 1\n"
    ∧ (run_all_tests
        [({ name := "a", func := fun _ => (.ok (), 1) } : test_case Nat)] "" 0).os
        = "Running test: a... PASS\nTotal tests run: 1\nTotal failures: 0\n"
    ∧ (run_all_tests
        [({ name := "b",
            func := ASSERT_EQ (Comparable.builtin Nat) "t.cpp" 9
              ⟨"flag", fun flag => (fun now => now, flag)⟩
              ⟨"0", fun flag => (fun _ => 0, flag)⟩ } : test_case Nat)] "" 0).os
        = "Running test: b... PASS\nTotal tests run: 1\nTotal failures: 0\n"
    ∧ (run_all_tests
        ([({ name := "a", func := fun _ => (.ok (), 1) } : test_case Nat)]
          ++ [{ name := "b",
                func := ASSERT_EQ (Comparable.builtin Nat) "t.cpp" 9
                  ⟨"flag", fun flag => (fun now => now, flag)⟩
                  ⟨"0", fun flag => (fun _ => 0, flag)⟩ }]) "" 0).ret
        ≠ (run_all_tests
            [({ name := "a", func := fun _ => (.ok (), 1) } : test_case Nat)] "" 0).ret
          + (run_all_tests
              [({ name := "b",
                  func := ASSERT_EQ (Comparable.builtin Nat) "t.cpp" 9
                    ⟨"flag", fun flag => (fun now => now, flag)⟩
                    ⟨"0", fun flag => (fun _ => 0, flag)⟩ } : test_case Nat)] "" 0).ret := by
  decide

/-- C5, amended: a failure in one test neither prevents later tests from running
nor changes their report.  Running `xs ++ ys` writes, after what the stream
held, the per-test lines of `xs` followed by the per-test lines of `ys`, then
the summary, and returns the sum of the two failure counts.  The lines and the
count of `xs` are those of a run of `xs` alone from the same state; the lines
and the count of `ys` are those of a run of `ys` alone from the state the bodies
of `xs` leave behind, which is made of the effects of these bodies and not of
their outcomes.  Lines, counts and states are those of `report_lines`,
`outcomes` and `state_after`, which say what each body does when its turn
comes. -/
theorem run_all_tests_append {σ : Type} (xs ys : List (test_case σ)) (os : String) (s : σ) :
    (run_all_tests (xs ++ ys) os s).os
        = os ++ text_of (report_lines xs s)
             ++ text_of (report_lines ys (xs.foldl (fun s test => (test.func s).2) s))
             ++ "Total tests run: " ++ toString (xs.length + ys.length) ++ "\n"
             ++ "Total failures: " ++ toString (run_all_tests (xs ++ ys) os s).ret ++ "\n"
    ∧ (run_all_tests (xs ++ ys) os s).ret
        = ((outcomes xs s).countP signals_failure : Nat)
          + ((outcomes ys (xs.foldl (fun s test => (test.func s).2) s)).countP
              signals_failure : Nat)
    ∧ (run_all_tests (xs ++ ys) os s).ret
        = (run_all_tests xs os s).ret
            + (run_all_tests ys os (xs.foldl (fun s test => (test.func s).2) s)).ret
    ∧ (run_all_tests (xs ++ ys) os s).state
        = ys.foldl (fun s test => (test.func s).2) (xs.foldl (fun s test => (test.func s).2) s)
    ∧ (∀ (zs : List (test_case σ)) (os₁ : String) (s₁ : σ),
        (run_all_tests zs os₁ s₁).os
            = os₁ ++ text_of (report_lines zs s₁)
                ++ "Total tests run: " ++ toString zs.length ++ "\n"
                ++ "Total failures: " ++ toString (run_all_tests zs os₁ s₁).ret ++ "\n"
        ∧ (run_all_tests zs os₁ s₁).ret = ((outcomes zs s₁).countP signals_failure : Nat)
        ∧ (run_all_tests zs os₁ s₁).state = zs.foldl (fun s test => (test.func s).2) s₁) := by
  refine ⟨?_, ?_, ?_, ?_, ?_⟩
  · simp only [run_all_tests_eq, report_lines_append, text_of_append, List.length_append,
      String.append_assoc]
    rfl
  · simp only [run_all_tests_eq, failure_count_append]
    simp [state_after, failure_count]
  · simp only [run_all_tests_eq, failure_count_append]
    simp [state_after]
  · simp only [run_all_tests_eq, state_after, List.foldl_append]
  · intro zs os₁ s₁
    simp only [run_all_tests_eq]
    exact ⟨rfl, rfl, rfl⟩

/-- C6: `ASSERT_EQ(expected, actual)` signals a failure exactly when `e != a`
holds for the values `e`, `a` of its operands (what the two references denote
when they are compared), under the `!=` of their type.
Otherwise it signals nothing and the statements after it run, from the state the
two evaluations leave. -/
theorem ASSERT_EQ_signals_iff_ne {σ α : Type} (cmp : Comparable α) (file : String) (line : Nat)
    (expected actual : Operand σ α) (s : σ) :
    (signals_failure (ASSERT_EQ cmp file line expected actual s).1 = true
        ↔ cmp.ne (expected_value expected actual s) (actual_value expected actual s) = true)
    ∧ ((ASSERT_EQ cmp file line expected actual s).1 = .ok ()
        ↔ cmp.ne (expected_value expected actual s) (actual_value expected actual s) = false)
    ∧ ∀ rest : test_function σ,
        seq (ASSERT_EQ cmp file line expected actual) rest s
          = if cmp.ne (expected_value expected actual s) (actual_value expected actual s)
            then ASSERT_EQ cmp file line expected actual s
            else rest (operands_state expected actual s) := by
  simp only [expected_value, actual_value, operands_state]
  cases h : cmp.ne
      ((expected.eval s).1 (actual.eval (expected.eval s).2).2)
      ((actual.eval (expected.eval s).2).1 (actual.eval (expected.eval s).2).2) <;>
    simp [ASSERT_EQ, seq, signals_failure, h]

/-- C7: `ASSERT_NE(expected, actual)` signals a failure exactly when `e == a`
holds for the values `e`, `a` of its operands (what the two references denote
when they are compared), under the `==` of their type.
Otherwise it signals nothing and the statements after it run, from the state the
two evaluations leave. -/
theorem ASSERT_NE_signals_iff_eq {σ α : Type} (cmp : Comparable α) (file : String) (line : Nat)
    (expected actual : Operand σ α) (s : σ) :
    (signals_failure (ASSERT_NE cmp file line expected actual s).1 = true
        ↔ cmp.eq (expected_value expected actual s) (actual_value expected actual s) = true)
    ∧ ((ASSERT_NE cmp file line expected actual s).1 = .ok ()
        ↔ cmp.eq (expected_value expected actual s) (actual_value expected actual s) = false)
    ∧ ∀ rest : test_function σ,
        seq (ASSERT_NE cmp file line expected actual) rest s
          = if cmp.eq (expected_value expected actual s) (actual_value expected actual s)
            then ASSERT_NE cmp file line expected actual s
            else rest (operands_state expected actual s) := by
  simp only [expected_value, actual_value, operands_state]
  cases h : cmp.eq
      ((expected.eval s).1 (actual.eval (expected.eval s).2).2)
      ((actual.eval (expected.eval s).2).1 (actual.eval (expected.eval s).2).2) <;>
    simp [ASSERT_NE, seq, signals_failure, h]

/-- C8: whenever `ASSERT_EQ` or `ASSERT_NE`, expanded at line `line` of `file`,
signals a failure, the object thrown is a `std::runtime_error` whose message is
`file ++ ":" ++ decimal line ++ ": expected " ++ X ++ op ++ Y`, with `X`, `Y`
the spellings of the two operand expressions and `op` "==" for `ASSERT_EQ`,
"!=" for `ASSERT_NE`.  The values of the operands do not occur in it. -/
theorem assertion_failure_message {σ α : Type} (cmp : Comparable α) (file : String) (line : Nat)
    (expected actual : Operand σ α) (s : σ) (t : Thrown) :
    ((ASSERT_EQ cmp file line expected actual s).1 = .error t →
        t = .runtime_error
          (file ++ ":" ++ Nat.repr line ++ ": expected " ++ expected.text ++ "==" ++ actual.text))
    ∧ ((ASSERT_NE cmp file line expected actual s).1 = .error t →
        t = .runtime_error
          (file ++ ":" ++ Nat.repr line ++ ": expected " ++ expected.text ++ "!=" ++ actual.text)) := by
  constructor
  · intro h
    simp only [ASSERT_EQ] at h
    split at h
    · exact (Except.error.inj h).symm
    · cases h
  · intro h
    simp only [ASSERT_NE] at h
    split at h
    · exact (Except.error.inj h).symm
    · cases h

/-- Witness of C8: `ASSERT_EQ(limit, count + 1)` at `t.cpp`:12 with values 3
and 5, and `ASSERT_NE(limit, count + 1)` at `t.cpp`:13 with values 4 and 4. -/
theorem assertion_failure_message_witness :
    ((ASSERT_EQ (Comparable.builtin Nat) "t.cpp" 12
        ⟨"limit", fun s => (fun _ => 3, s)⟩ ⟨"count + 1", fun s => (fun _ => 5, s)⟩ ()).1
        = .error (.runtime_error "t.cpp:12: expected limit==count + 1")
      ∧ Thrown.runtime_error "t.cpp:12: expected limit==count + 1"
        = .runtime_error ("t.cpp" ++ ":" ++ Nat.repr 12 ++ ": expected " ++ "limit" ++ "=="
            ++ "count + 1"))
    ∧ ((ASSERT_NE (Comparable.builtin Nat) "t.cpp" 13
        ⟨"limit", fun s => (fun _ => 4, s)⟩ ⟨"count + 1", fun s => (fun _ => 4, s)⟩ ()).1
        = .error (.runtime_error "t.cpp:13: expected limit!=count + 1")
      ∧ Thrown.runtime_error "t.cpp:13: expected limit!=count + 1"
        = .runtime_error ("t.cpp" ++ ":" ++ Nat.repr 13 ++ ": expected " ++ "limit" ++ "!="
            ++ "count + 1")) :=
  ⟨⟨rfl,
    (assertion_failure_message (Comparable.builtin Nat) "t.cpp" 12
      ⟨"limit", fun s => (fun _ => 3, s)⟩ ⟨"count + 1", fun s => (fun _ => 5, s)⟩ ()
      (.runtime_error "t.cpp:12: expected limit==count + 1")).1 rfl⟩,
   ⟨rfl,
    (assertion_failure_message (Comparable.builtin Nat) "t.cpp" 13
      ⟨"limit", fun s => (fun _ => 4, s)⟩ ⟨"count + 1", fun s => (fun _ => 4, s)⟩ ()
      (.runtime_error "t.cpp:13: expected limit!=count + 1")).2 rfl⟩⟩

/-- C9: registering a test appends it.  After `TEST(n)` with body `b` the
registry holds its former contents `r`, unchanged and in the same order,
followed by the single entry `(n, b)`.  Nothing is assumed on `n`: an entry
whose name already occurs in `r` is appended all the same, so registering the
same test twice leaves two entries. -/
theorem TEST_appends {σ : Type} (r : List (test_case σ)) (n : String) (b : test_function σ) :
    TEST n b r = r ++ [{ name := n, func := b }]
    ∧ (TEST n b r).length = r.length + 1
    ∧ (TEST n b r).take r.length = r
    ∧ (TEST n b r).drop r.length = [{ name := n, func := b }]
    ∧ TEST n b (TEST n b r) = r ++ [{ name := n, func := b }, { name := n, func := b }] := by
  have h : ∀ l : List (test_case σ), TEST n b l = l ++ [{ name := n, func := b }] := by
    intro l
    unfold TEST
    exact List.concat_eq_append l _
  refine ⟨h r, ?_, ?_, ?_, ?_⟩
  · rw [h, List.length_append, List.length_singleton]
  · rw [h, List.take_left]
  · rw [h, List.drop_left]
  · rw [h, h, List.append_assoc]
    rfl

/-- C10, as stated, fails: a body that throws `std::logic_error("boom")`, of a
class deriving publicly from `std::exception` and which no assertion macro
raises, is not reported as "FAIL: Unknown exception\n"; the first handler of
`run_all_tests` takes it and reports its message. -/
theorem unknown_exception_counterexample :
    (run_all_tests [{ name := "t", func := fun s => (.error (.derived "boom"), s) }] "" ()).os
        = "Running test: t... FAIL: boom\nTotal tests run: 1\nTotal failures: 1\n"
    ∧ (run_all_tests [{ name := "t", func := fun s => (.error (.derived "boom"), s) }] "" ()).os
        ≠ "Running test: t... FAIL: Unknown exception\nTotal tests run: 1\nTotal failures: 1\n"
    ∧ (run_all_tests_loop
          [{ name := "t", func := fun s => (.error (.derived "boom"), s) }] "" 0 ()).1
        ≠ "Running test: t... FAIL: Unknown exception\n" := by
  decide

/-- C10, amended: the two handlers of `run_all_tests` split what a body throws
by whether `catch (const std::exception&)` matches it, not by who raised it.
An object of a class that has `std::exception` as an accessible, unambiguous
public base, the `std::runtime_error` of an assertion macro or any other, is
reported as "FAIL: " ++ what() ++ "\n"; every other thrown object (of a type
unrelated to `std::exception`, or of a class deriving from it privately or
ambiguously) is reported as "FAIL: Unknown exception\n".  Either way the
failure counter grows by one and the loop goes on with the next entry. -/
theorem run_all_tests_handlers {σ : Type} (test : test_case σ) (rest : List (test_case σ))
    (os : String) (num_failures : Int) (s : σ) (t : Thrown) :
    (test.func s).1 = .error t →
    run_all_tests_loop (test :: rest) os num_failures s
      = run_all_tests_loop rest
          (os ++ "Running test: " ++ test.name ++ "... " ++
            (match t with
             | .runtime_error what => "FAIL: " ++ what ++ "\n"
             | .derived what => "FAIL: " ++ what ++ "\n"
             | .non_std => "FAIL: Unknown exception\n"))
          (num_failures + 1) (test.func s).2 := by
  intro h
  rcases hf : test.func s with ⟨o, s₁⟩
  rw [hf] at h
  simp only at h
  subst h
  cases t <;>
    simp only [run_all_tests_loop, hf, Thrown.catch_std_exception, String.append_assoc]

/-- Witness of the amended C10: a body that does `throw 42;` (the same holds of
a body that throws an object of a class deriving privately from
`std::exception`). -/
theorem run_all_tests_handlers_witness :
    ((fun s => (.error .non_std, s) : test_function Unit) ()).1 = .error .non_std
    ∧ run_all_tests_loop
        [{ name := "t", func := fun s => (.error .non_std, s) }, { name := "u", func := fun s => (.ok (), s) }]
        "" 0 ()
      = run_all_tests_loop [{ name := "u", func := fun s => (.ok (), s) }]
          ("" ++ "Running test: " ++ "t" ++ "... " ++ "FAIL: Unknown exception\n") (0 + 1) () :=
  ⟨rfl,
   run_all_tests_handlers { name := "t", func := fun s => (.error .non_std, s) }
     [{ name := "u", func := fun s => (.ok (), s) }] "" 0 () .non_std rfl⟩

/-- C11: a failing assertion aborts the rest of its test body and is counted
once.  For a body made of steps `before` that return, then an `ASSERT_EQ` whose
operands compare different under `!=`, then any steps `after`: the body throws the message
of that assertion, with the two expression texts joined by "==", and leaves
the state the two operand evaluations left, so no step of `after` has run; the
runner reports that message for the test and adds exactly one to the failure
counter, whatever `after` holds. -/
theorem failing_assertion_aborts_body {σ α : Type} (cmp : Comparable α) (file : String)
    (line : Nat) (expected actual : Operand σ α) (before after : test_function σ)
    (name : String) (rest : List (test_case σ)) (os : String) (num_failures : Int) (s : σ)
    (hb : (before s).1 = .ok ())
    (hne : cmp.ne (expected_value expected actual (before s).2)
            (actual_value expected actual (before s).2) = true) :
    seq before (seq (ASSERT_EQ cmp file line expected actual) after) s
        = (.error (.runtime_error
            (file ++ ":" ++ Nat.repr line ++ ": expected " ++ expected.text ++ "=="
              ++ actual.text)),
           operands_state expected actual (before s).2)
    ∧ run_all_tests_loop
          ({ name := name,
             func := seq before (seq (ASSERT_EQ cmp file line expected actual) after) } :: rest)
          os num_failures s
        = run_all_tests_loop rest
            (os ++ "Running test: " ++ name ++ "... " ++ "FAIL: "
              ++ (file ++ ":" ++ Nat.repr line ++ ": expected " ++ expected.text ++ "=="
                    ++ actual.text) ++ "\n")
            (num_failures + 1) (operands_state expected actual (before s).2)
    ∧ (run_all_tests
          [{ name := name,
             func := seq before (seq (ASSERT_EQ cmp file line expected actual) after) }]
          os s).ret = 1 := by
  have hbody : seq before (seq (ASSERT_EQ cmp file line expected actual) after) s
      = (.error (.runtime_error
          (file ++ ":" ++ Nat.repr line ++ ": expected " ++ expected.text ++ "=="
            ++ actual.text)),
         operands_state expected actual (before s).2) := by
    rcases hbs : before s with ⟨o, s₀⟩
    rw [hbs] at hb hne
    simp only [expected_value, actual_value, operands_state] at hb hne
    subst hb
    simp only [seq, hbs, ASSERT_EQ, hne, if_true, operands_state]
    rfl
  refine ⟨hbody, ?_, ?_⟩
  · simp only [run_all_tests_loop, hbody, Thrown.catch_std_exception]
  · simp only [run_all_tests, run_all_tests_loop, hbody, Thrown.catch_std_exception]
    rfl

/-- Witness of C11: the body `++n; ASSERT_EQ(1, 2); n = 100; ASSERT_EQ(3, 4);`
at `t.cpp`:7, run from `n = 0`. -/
theorem failing_assertion_aborts_body_witness :
    ((fun n => (.ok (), n + 1) : test_function Nat) 0).1 = .ok ()
    ∧ (Comparable.builtin Int).ne 1 2 = true
    ∧ seq (fun n => (.ok (), n + 1))
        (seq (ASSERT_EQ (Comparable.builtin Int) "t.cpp" 7
                ⟨"1", fun n => (fun _ => 1, n)⟩ ⟨"2", fun n => (fun _ => 2, n)⟩)
          (seq (fun _ => (.ok (), 100))
            (ASSERT_EQ (Comparable.builtin Int) "t.cpp" 9
                ⟨"3", fun n => (fun _ => 3, n)⟩ ⟨"4", fun n => (fun _ => 4, n)⟩))) 0
        = (.error (.runtime_error "t.cpp:7: expected 1==2"), 1) :=
  ⟨rfl, rfl,
   (failing_assertion_aborts_body (Comparable.builtin Int) "t.cpp" 7
      ⟨"1", fun n => (fun _ => 1, n)⟩ ⟨"2", fun n => (fun _ => 2, n)⟩
      (fun n => (.ok (), n + 1))
      (seq (fun _ => (.ok (), 100))
        (ASSERT_EQ (Comparable.builtin Int) "t.cpp" 9
          ⟨"3", fun n => (fun _ => 3, n)⟩ ⟨"4", fun n => (fun _ => 4, n)⟩))
      "t" [] "" 0 0 rfl rfl).1⟩

/-- C12: `ASSERT_EQ` and `ASSERT_NE` evaluate each operand expression exactly
once, `expected` before `actual`, whether the assertion passes or fails.  The
state after the assertion is the state after evaluating `expected` and then
`actual`; with operands that log their own evaluation the log grows by exactly
the two spellings, in that order, and the outcome is unchanged: building the
failure message evaluates nothing. -/
theorem assertion_evaluates_operands_once {σ α : Type} (cmp : Comparable α) (file : String)
    (line : Nat) (expected actual : Operand σ α) (s : σ) (log : List String) :
    (ASSERT_EQ cmp file line expected actual s).2 = (actual.eval (expected.eval s).2).2
    ∧ (ASSERT_NE cmp file line expected actual s).2 = (actual.eval (expected.eval s).2).2
    ∧ ASSERT_EQ cmp file line expected.traced actual.traced (s, log)
        = ((ASSERT_EQ cmp file line expected actual s).1,
           ((actual.eval (expected.eval s).2).2, log ++ [expected.text, actual.text]))
    ∧ ASSERT_NE cmp file line expected.traced actual.traced (s, log)
        = ((ASSERT_NE cmp file line expected actual s).1,
           ((actual.eval (expected.eval s).2).2, log ++ [expected.text, actual.text])) := by
  refine ⟨?_, ?_, ?_, ?_⟩
  · simp only [ASSERT_EQ]
    split <;> rfl
  · simp only [ASSERT_NE]
    split <;> rfl
  · simp only [ASSERT_EQ, Operand.traced, List.append_assoc, List.singleton_append]
    split <;> rfl
  · simp only [ASSERT_NE, Operand.traced, List.append_assoc, List.singleton_append]
    split <;> rfl

/-- C13: with a registry holding `t1`, whose body does nothing, followed by
`t2`, whose body is `ASSERT_EQ(1, 2)` at line `line` of `file`, `run_all_tests`
writes "Running test: t1... PASS\n", then "Running test: t2... FAIL: " ++
file ++ ":" ++ line ++ ": expected 1==2\n", then "Total tests run: 2\n" and
"Total failures: 1\n", and returns 1. -/
theorem scenario_t1_passes_t2_fails {σ : Type} (file : String) (line : Nat) (os : String)
    (s : σ) :
    (run_all_tests
        (TEST "t2"
          (ASSERT_EQ (Comparable.builtin Int) file line
            ⟨"1", fun s => (fun _ => 1, s)⟩ ⟨"2", fun s => (fun _ => 2, s)⟩)
          (TEST "t1" (fun s => (.ok (), s)) []))
        os s).os
      = os ++ "Running test: t1... PASS\n"
           ++ ("Running test: t2... FAIL: " ++ file ++ ":" ++ Nat.repr line
                ++ ": expected 1==2\n")
           ++ "Total tests run: 2\n"
           ++ "Total failures: 1\n"
    ∧ (run_all_tests
        (TEST "t2"
          (ASSERT_EQ (Comparable.builtin Int) file line
            ⟨"1", fun s => (fun _ => 1, s)⟩ ⟨"2", fun s => (fun _ => 2, s)⟩)
          (TEST "t1" (fun s => (.ok (), s)) []))
        os s).ret = 1
    ∧ (run_all_tests
        (TEST "t2"
          (ASSERT_EQ (Comparable.builtin Int) file line
            ⟨"1", fun s => (fun _ => 1, s)⟩ ⟨"2", fun s => (fun _ => 2, s)⟩)
          (TEST "t1" (fun s => (.ok (), s)) []))
        os s).state = s := by
  have hne : (Comparable.builtin Int).ne 1 2 = true := rfl
  have h2 : ASSERT_EQ (Comparable.builtin Int) file line
      (⟨"1", fun s => (fun _ => 1, s)⟩ : Operand σ Int) ⟨"2", fun s => (fun _ => 2, s)⟩ s
      = (.error (.runtime_error (file ++ ":" ++ Nat.repr line ++ ": expected " ++ "1" ++ "=="
          ++ "2")), s) := by
    simp only [ASSERT_EQ, hne, if_true]
    rfl
  refine ⟨?_, ?_, ?_⟩
  · have hA : "Running test: t1... PASS\n" = "Running test: " ++ "t1" ++ "... " ++ "PASS\n" := rfl
    have hB : "Running test: t2... FAIL: " = "Running test: " ++ "t2" ++ "... " ++ "FAIL: " := rfl
    have hC : ": expected 1==2\n" = ": expected " ++ "1" ++ "==" ++ "2" ++ "\n" := rfl
    have hD : "Total tests run: 2\n" = "Total tests run: " ++ toString 2 ++ "\n" := rfl
    have hE : "Total failures: 1\n" = "Total failures: " ++ toString (1 : Int) ++ "\n" := rfl
    rw [hA, hB, hC, hD, hE]
    simp only [TEST, List.concat, run_all_tests, run_all_tests_loop, h2,
      Thrown.catch_std_exception, String.append_assoc]
    rfl
  · simp only [TEST, List.concat, run_all_tests, run_all_tests_loop, h2,
      Thrown.catch_std_exception]
    rfl
  · simp only [TEST, List.concat, run_all_tests, run_all_tests_loop, h2,
      Thrown.catch_std_exception]

/-- C14, as stated, fails: `get_test_cases()` hands every caller, test bodies
included, a reference through which the vector can be changed.  With a registry
holding the single test `t` whose body is
`get_test_cases().push_back({"extra", extra});`, the registry holds two
entries after `run_all_tests` returns, and the summary, which asks for the size
after the loop, says so.  (`t` is the last entry, so the loop visits no position
after the vector has grown.) -/
theorem registry_changed_by_body_counterexample :
    get_test_cases
        (Program.run_all_tests
          (fun f q =>
            if f = 0 then (.ok (), { q with test_cases := q.test_cases.concat ⟨"extra", 1⟩ })
            else (.ok (), q))
          ({ test_cases := [⟨"t", 0⟩], globals := () } : Program Unit) "").state
      = [⟨"t", 0⟩, ⟨"extra", 1⟩]
    ∧ get_test_cases
        (Program.run_all_tests
          (fun f q =>
            if f = 0 then (.ok (), { q with test_cases := q.test_cases.concat ⟨"extra", 1⟩ })
            else (.ok (), q))
          ({ test_cases := [⟨"t", 0⟩], globals := () } : Program Unit) "").state
      ≠ get_test_cases ({ test_cases := [⟨"t", 0⟩], globals := () } : Program Unit)
    ∧ (Program.run_all_tests
          (fun f q =>
            if f = 0 then (.ok (), { q with test_cases := q.test_cases.concat ⟨"extra", 1⟩ })
            else (.ok (), q))
          ({ test_cases := [⟨"t", 0⟩], globals := () } : Program Unit) "").os
      = "Running test: t... PASS\nTotal tests run: 2\nTotal failures: 0\n" := by
  decide

/-- C14, amended: `run_all_tests` itself only reads the registry.  When no
registered test body changes the registry, the contents of the registry after
`run_all_tests` returns are its contents before the call; the call is then the
run of the entries found in the registry, once each, in order, and a second call
runs the same entries in the same order again, from the state the first call
left. -/
theorem run_all_tests_leaves_registry {γ : Type} (code : Nat → test_function (Program γ))
    (p : Program γ) (os os₂ : String) :
    (∀ test ∈ get_test_cases p, ∀ q : Program γ,
        get_test_cases (code test.func q).2 = get_test_cases q) →
    get_test_cases (Program.run_all_tests code p os).state = get_test_cases p
    ∧ Program.run_all_tests code p os = run_all_tests (Program.registered code p) os p
    ∧ Program.run_all_tests code (Program.run_all_tests code p os).state os₂
        = run_all_tests (Program.registered code p) os₂
            (Program.run_all_tests code p os).state := by
  intro h
  have hreg : ∀ test ∈ Program.registered code p, ∀ q : Program γ,
      (test.func q).2.test_cases = q.test_cases := by
    intro test ht q
    obtain ⟨e, he, rfl⟩ := List.mem_map.mp ht
    exact h e he q
  have hstate : ∀ (os₁ : String) (q : Program γ),
      (run_all_tests (Program.registered code p) os₁ q).state.test_cases = q.test_cases := by
    intro os₁ q
    rw [run_all_tests_eq]
    exact state_after_test_cases _ hreg q
  have hrun : ∀ (os₁ : String) (q : Program γ), q.test_cases = p.test_cases →
      Program.run_all_tests code q os₁ = run_all_tests (Program.registered code p) os₁ q := by
    intro os₁ q hq
    have hloop := Program.run_all_tests_loop_eq_of_preserved code p.test_cases h
      p.test_cases.length 0 os₁ 0 q hq
    simp only [List.drop_zero, List.take_length] at hloop
    have hfinal := hstate os₁ q
    simp only [run_all_tests_eq] at hfinal
    simp only [Program.run_all_tests, get_test_cases, hq, hloop, run_all_tests_loop_eq,
      run_all_tests_eq, Program.registered, List.length_map, zero_add] at hfinal ⊢
    rw [hfinal]
    rfl
  have h1 : get_test_cases (Program.run_all_tests code p os).state = get_test_cases p := by
    rw [hrun os p rfl]
    exact hstate os p
  exact ⟨h1, hrun os p rfl, hrun os₂ _ h1⟩

/-- Witness of the amended C14: one registered test, whose body counts its calls
in the rest of the program state and leaves the registry alone. -/
theorem run_all_tests_leaves_registry_witness :
    (∀ test ∈ get_test_cases ({ test_cases := [⟨"t", 0⟩], globals := 0 } : Program Nat),
        ∀ q : Program Nat,
          get_test_cases
              ((fun _ r => (.ok (), { r with globals := r.globals + 1 })
                  : Nat → test_function (Program Nat)) test.func q).2
            = get_test_cases q)
    ∧ get_test_cases
        (Program.run_all_tests (fun _ r => (.ok (), { r with globals := r.globals + 1 }))
          ({ test_cases := [⟨"t", 0⟩], globals := 0 } : Program Nat) "").state
      = get_test_cases ({ test_cases := [⟨"t", 0⟩], globals := 0 } : Program Nat) :=
  ⟨fun _ _ _ => rfl,
   (run_all_tests_leaves_registry (fun _ r => (.ok (), { r with globals := r.globals + 1 }))
      ({ test_cases := [⟨"t", 0⟩], globals := 0 } : Program Nat) "" ""
      (fun _ _ _ => rfl)).1⟩

/-- C15: the value `K` returned for a registry of `N` entries satisfies
`0 ≤ K ≤ N`; `K = 0` exactly when every body returns without signalling a
failure, and `K = N` exactly when every body signals one.  An empty registry
gives 0 and only the two lines "Total tests run: 0\n" and
"Total failures: 0\n" are written. -/
theorem run_all_tests_return_bounds {σ : Type} (tests : List (test_case σ)) (os : String)
    (s : σ) :
    (0 ≤ (run_all_tests tests os s).ret ∧ (run_all_tests tests os s).ret ≤ (tests.length : Int))
    ∧ ((run_all_tests tests os s).ret = 0
        ↔ ∀ o ∈ outcomes tests s, signals_failure o = false)
    ∧ ((run_all_tests tests os s).ret = (tests.length : Int)
        ↔ ∀ o ∈ outcomes tests s, signals_failure o = true)
    ∧ (run_all_tests ([] : List (test_case σ)) os s).ret = 0
    ∧ (run_all_tests ([] : List (test_case σ)) os s).os
        = os ++ "Total tests run: 0\n" ++ "Total failures: 0\n" := by
  have hret : (run_all_tests tests os s).ret = (failure_count tests s : Int) := by
    rw [run_all_tests_eq]
  refine ⟨⟨?_, ?_⟩, ?_, ?_, rfl, ?_⟩
  · rw [hret]
    exact Int.ofNat_nonneg _
  · rw [hret]
    exact Int.ofNat_le.mpr (failure_count_le tests s)
  · rw [hret]
    constructor
    · intro h o ho
      have h0 : failure_count tests s = 0 := Int.ofNat_eq_zero.mp h
      have hn := (List.countP_eq_zero.mp h0) o ho
      simpa using hn
    · intro h
      have h0 : failure_count tests s = 0 :=
        List.countP_eq_zero.mpr (fun o ho => by simp [h o ho])
      rw [h0]
      rfl
  · rw [hret]
    constructor
    · intro h o ho
      have h0 : failure_count tests s = tests.length := Int.ofNat_inj.mp h
      have h1 : List.countP signals_failure (outcomes tests s) = (outcomes tests s).length := by
        rw [outcomes_length]
        exact h0
      exact (List.countP_eq_length.mp h1) o ho
    · intro h
      have h1 : List.countP signals_failure (outcomes tests s) = (outcomes tests s).length :=
        List.countP_eq_length.mpr h
      rw [outcomes_length] at h1
      exact congrArg Int.ofNat h1
  · simp only [run_all_tests, run_all_tests_loop, String.append_assoc, List.length_nil]
    exact congrArg (fun t => os ++ t) (by decide)

/-- C16: for an operand type whose `!=` is the negation of its `==`, exactly one
of `ASSERT_EQ(e, a)` and `ASSERT_NE(e, a)` signals a failure on the same
operands, although the first is decided by `!=` and the second by `==`. -/
theorem assertions_complementary {σ α : Type} (cmp : Comparable α)
    (h : ∀ x y : α, cmp.ne x y = !cmp.eq x y)
    (file₁ : String) (line₁ : Nat) (file₂ : String) (line₂ : Nat)
    (expected actual : Operand σ α) (s : σ) :
    ((signals_failure (ASSERT_EQ cmp file₁ line₁ expected actual s).1 = true
        ∧ signals_failure (ASSERT_NE cmp file₂ line₂ expected actual s).1 = false)
      ∨ (signals_failure (ASSERT_EQ cmp file₁ line₁ expected actual s).1 = false
        ∧ signals_failure (ASSERT_NE cmp file₂ line₂ expected actual s).1 = true))
    ∧ signals_failure (ASSERT_EQ cmp file₁ line₁ expected actual s).1
        = cmp.ne (expected_value expected actual s) (actual_value expected actual s)
    ∧ signals_failure (ASSERT_NE cmp file₂ line₂ expected actual s).1
        = cmp.eq (expected_value expected actual s) (actual_value expected actual s) := by
  have hne := h (expected_value expected actual s) (actual_value expected actual s)
  simp only [expected_value, actual_value, operands_state] at hne ⊢
  cases he : cmp.eq
      ((expected.eval s).1 (actual.eval (expected.eval s).2).2)
      ((actual.eval (expected.eval s).2).1 (actual.eval (expected.eval s).2).2) <;>
    rw [he] at hne <;>
    simp [ASSERT_EQ, ASSERT_NE, signals_failure, he, hne]

/-- Witness of C16: the built-in comparison of the natural numbers, on
`ASSERT_EQ(3, 3)` and `ASSERT_NE(3, 3)`. -/
theorem assertions_complementary_witness :
    (∀ x y : Nat, (Comparable.builtin Nat).ne x y = !(Comparable.builtin Nat).eq x y)
    ∧ ((signals_failure (ASSERT_EQ (Comparable.builtin Nat) "t.cpp" 4
            ⟨"3", fun s => (fun _ => 3, s)⟩ ⟨"3", fun s => (fun _ => 3, s)⟩ ()).1 = true
          ∧ signals_failure (ASSERT_NE (Comparable.builtin Nat) "t.cpp" 5
            ⟨"3", fun s => (fun _ => 3, s)⟩ ⟨"3", fun s => (fun _ => 3, s)⟩ ()).1 = false)
        ∨ (signals_failure (ASSERT_EQ (Comparable.builtin Nat) "t.cpp" 4
            ⟨"3", fun s => (fun _ => 3, s)⟩ ⟨"3", fun s => (fun _ => 3, s)⟩ ()).1 = false
          ∧ signals_failure (ASSERT_NE (Comparable.builtin Nat) "t.cpp" 5
            ⟨"3", fun s => (fun _ => 3, s)⟩ ⟨"3", fun s => (fun _ => 3, s)⟩ ()).1 = true)) :=
  ⟨fun _ _ => rfl,
   (assertions_complementary (Comparable.builtin Nat) (fun _ _ => rfl) "t.cpp" 4 "t.cpp" 5
      ⟨"3", fun s => (fun _ => 3, s)⟩ ⟨"3", fun s => (fun _ => 3, s)⟩ ()).1⟩

end SimpleUT
